import Mathlib

/-!
Verification of the cross-chain arbitrage paper-trading engine
(`src/arbitrage.ts`, `src/getters.ts`).

All monetary quantities are embedded as exact rationals (`ℚ`); the
TypeScript source uses IEEE doubles, but every claim under scrutiny is about
the algebraic structure of the computations (which balance fields are read
and written, which branch is taken, exact formulas), which the rational
embedding renders faithfully.  `Math.floor` / `Math.ceil` become `Int.floor`
/ `Int.ceil` on `ℚ`.

Chains are the two monitored networks, tokens the two stablecoins.
Timestamps are dropped from balances and trade records: no claim depends on
them (the cache-TTL logic of `getters.ts`, which does depend on time, keeps
its timestamps explicitly as `ℕ` milliseconds).
-/

namespace CrossChainArb

/-- The two monitored networks (`CHAIN_NAMES` in `clients.ts`). -/
inductive Chain where
  | avalanche
  | sonic
deriving DecidableEq, Repr

/-- The two stablecoin roles of the pair. -/
inductive Token where
  | USDC
  | USDT
deriving DecidableEq, Repr

/-- `PaperTrade.status` of `arbitrage.ts`. -/
inductive TradeStatus where
  | executed
  | failed
  | pending
deriving DecidableEq, Repr

/-- Per-chain holdings, `TokenBalance` of `arbitrage.ts` (timestamp dropped). -/
structure TokenBalance where
  usdc : ℚ
  usdt : ℚ
deriving DecidableEq, Repr

/-- A recorded paper trade, `PaperTrade` of `arbitrage.ts`
(id and timestamp dropped). -/
structure PaperTrade where
  sourceChain : Chain
  targetChain : Chain
  sourcePrice : ℚ
  targetPrice : ℚ
  amount : ℚ
  profit : ℚ
  gasCost : ℚ
  netProfit : ℚ
  status : TradeStatus
deriving DecidableEq, Repr

/-- The module-level mutable state of `arbitrage.ts`: `paperBalances` for the
two chains together with the `paperTrades` history. -/
structure PaperState where
  avalanche : TokenBalance
  sonic : TokenBalance
  paperTrades : List PaperTrade
deriving DecidableEq, Repr

/-- `getPaperBalance` of `arbitrage.ts`. -/
def getPaperBalance (s : PaperState) (chainName : Chain) : TokenBalance :=
  match chainName with
  | .avalanche => s.avalanche
  | .sonic => s.sonic

/-- `updatePaperBalance` of `arbitrage.ts`. -/
def updatePaperBalance (s : PaperState) (chainName : Chain) (usdc usdt : ℚ) :
    PaperState :=
  match chainName with
  | .avalanche => { s with avalanche := { usdc := usdc, usdt := usdt } }
  | .sonic => { s with sonic := { usdc := usdc, usdt := usdt } }

/-- `addPaperTrade` of `arbitrage.ts`: pushes one record onto the history. -/
def addPaperTrade (s : PaperState) (trade : PaperTrade) : PaperState :=
  { s with paperTrades := s.paperTrades ++ [trade] }

/-- The seed allocation of `paperBalances` in `arbitrage.ts`. -/
def initialPaperBalances : PaperState :=
  { avalanche := { usdc := 50000, usdt := 50000 }
    sonic := { usdc := 50000, usdt := 50000 }
    paperTrades := [] }

/-- Combined USDC across both chains, as summed by `determineTargetToken`
and `logBalances`. -/
def totalUSDC (s : PaperState) : ℚ :=
  s.avalanche.usdc + s.sonic.usdc

/-- Combined USDT across both chains. -/
def totalUSDT (s : PaperState) : ℚ :=
  s.avalanche.usdt + s.sonic.usdt

/-- `executeUSDCTargetedArbitrage` of `arbitrage.ts`.  The profit threshold
(`CONFIG.PROFIT_THRESHOLD`) and the gas cost the function would query via
`getGasCostInUSD` are passed as parameters (`gasCostUSD` stands for the sum
`sourceGasUSD + targetGasUSD`). -/
def executeUSDCTargetedArbitrage (profitThreshold : ℚ) (s : PaperState)
    (buyChain sellChain : Chain)
    (buyPriceUSDCperUSDT sellPriceUSDCperUSDT tradeAmountUSDC gasCostUSD : ℚ) :
    PaperState :=
  let sourceBalance := getPaperBalance s buyChain
  let targetBalance := getPaperBalance s sellChain
  if sourceBalance.usdc < tradeAmountUSDC then s
  else
    let usdtReceived := tradeAmountUSDC / buyPriceUSDCperUSDT
    let usdcReceived := usdtReceived * sellPriceUSDCperUSDT
    let grossProfitUSDC := usdcReceived - tradeAmountUSDC
    let netProfitUSD := grossProfitUSDC - gasCostUSD
    if profitThreshold < netProfitUSD then
      let s1 := addPaperTrade s
        { sourceChain := buyChain
          targetChain := sellChain
          sourcePrice := buyPriceUSDCperUSDT
          targetPrice := sellPriceUSDCperUSDT
          amount := tradeAmountUSDC
          profit := grossProfitUSDC
          gasCost := gasCostUSD
          netProfit := netProfitUSD
          status := .executed }
      let s2 := updatePaperBalance s1 buyChain
        (sourceBalance.usdc - tradeAmountUSDC) sourceBalance.usdt
      updatePaperBalance s2 sellChain
        (targetBalance.usdc + usdcReceived) targetBalance.usdt
    else s

/-- `executeUSDTTargetedArbitrage` of `arbitrage.ts`. -/
def executeUSDTTargetedArbitrage (profitThreshold : ℚ) (s : PaperState)
    (buyChain sellChain : Chain)
    (buyPriceUSDTperUSDC sellPriceUSDTperUSDC tradeAmountUSDT gasCostUSD : ℚ) :
    PaperState :=
  let sourceBalance := getPaperBalance s buyChain
  let targetBalance := getPaperBalance s sellChain
  if sourceBalance.usdt < tradeAmountUSDT then s
  else
    let usdcReceived := tradeAmountUSDT * buyPriceUSDTperUSDC
    let usdtReceived := usdcReceived / sellPriceUSDTperUSDC
    let grossProfitUSDT := usdtReceived - tradeAmountUSDT
    let netProfitUSD := grossProfitUSDT - gasCostUSD
    if profitThreshold < netProfitUSD then
      let s1 := addPaperTrade s
        { sourceChain := buyChain
          targetChain := sellChain
          sourcePrice := buyPriceUSDTperUSDC
          targetPrice := sellPriceUSDTperUSDC
          amount := tradeAmountUSDT
          profit := grossProfitUSDT
          gasCost := gasCostUSD
          netProfit := netProfitUSD
          status := .executed }
      let s2 := updatePaperBalance s1 buyChain
        sourceBalance.usdc (sourceBalance.usdt - tradeAmountUSDT)
      updatePaperBalance s2 sellChain
        targetBalance.usdc (targetBalance.usdt + usdtReceived)
    else s

/-- `ATOMIC_UNIT` of `calculateMinimumTradeAmount`: one atomic unit of a
6-decimal asset. -/
def ATOMIC_UNIT : ℚ := 1 / 1000000

/-- `Math.ceil (x * 1000000) / 1000000`: round up to 6 decimal places. -/
def ceilTo6 (x : ℚ) : ℚ :=
  (⌈x * 1000000⌉ : ℚ) / 1000000

/-- `calculateMinimumTradeAmount` of `arbitrage.ts`. -/
def calculateMinimumTradeAmount (profitThreshold buyPrice sellPrice totalGasUSD : ℚ)
    (isUSDCTargeted : Bool) : ℚ :=
  let requiredNetProfit := totalGasUSD + profitThreshold + ATOMIC_UNIT
  if isUSDCTargeted then
    let priceRatio := sellPrice / buyPrice
    if priceRatio ≤ 1 then 0
    else ceilTo6 ((requiredNetProfit + totalGasUSD) / (priceRatio - 1))
  else
    let priceRatio := buyPrice / sellPrice
    if priceRatio ≤ 1 then 0
    else ceilTo6 ((requiredNetProfit + totalGasUSD) / (priceRatio - 1))

/-- `absoluteMinTradeAmountUSDC` / `absoluteMinTradeAmountUSDT`: the absolute
minimum trade size of the check functions. -/
def absoluteMinTradeAmount : ℚ := 100

/-- `(⌊x⌋ : ℚ)`, the embedding of `Math.floor`. -/
def floorQ (x : ℚ) : ℚ :=
  (⌊x⌋ : ℚ)

/-- Which branch a `check*TargetedArbitrage` function takes, in the order the
source tests them: the `minTradeAmount === 0` early return (logged as
"price ratio ... <= 1"), the `maxTradeAmount < max(min, absoluteMin)` early
return (logged as "Insufficient ..."), and the final profit comparison which
either calls the execute function with the sized amount or only logs
"not profitable after gas costs". -/
inductive CheckResult where
  | ratioNotProfitable
  | insufficientBalance
  | belowThreshold (tradeAmount : ℚ)
  | execute (tradeAmount : ℚ)
deriving DecidableEq, Repr

/-- The branch/sizing logic of `checkUSDCTargetedArbitrage` of `arbitrage.ts`
(everything up to and including the decision whether to call
`executeUSDCTargetedArbitrage`, and with which `tradeAmountUSDC`). -/
def checkUSDCTargetedArbitrage (profitThreshold : ℚ) (s : PaperState)
    (buyChain : Chain)
    (buyPriceUSDCperUSDT sellPriceUSDCperUSDT totalGasUSD : ℚ) : CheckResult :=
  let sourceBalance := getPaperBalance s buyChain
  let minTradeAmountUSDC :=
    calculateMinimumTradeAmount profitThreshold buyPriceUSDCperUSDT
      sellPriceUSDCperUSDT totalGasUSD true
  if minTradeAmountUSDC = 0 then .ratioNotProfitable
  else
    let maxTradeAmountUSDC := floorQ (sourceBalance.usdc * (1 / 2))
    if maxTradeAmountUSDC < max minTradeAmountUSDC absoluteMinTradeAmount then
      .insufficientBalance
    else
      let tradeAmountUSDC :=
        min maxTradeAmountUSDC (max minTradeAmountUSDC absoluteMinTradeAmount)
      let usdtReceived := tradeAmountUSDC / buyPriceUSDCperUSDT
      let usdcReceived := usdtReceived * sellPriceUSDCperUSDT
      let grossProfitUSDC := usdcReceived - tradeAmountUSDC
      let netProfitUSD := grossProfitUSDC - totalGasUSD
      if profitThreshold < netProfitUSD then .execute tradeAmountUSDC
      else .belowThreshold tradeAmountUSDC

/-- The branch/sizing logic of `checkUSDTTargetedArbitrage` of `arbitrage.ts`. -/
def checkUSDTTargetedArbitrage (profitThreshold : ℚ) (s : PaperState)
    (buyChain : Chain)
    (buyPriceUSDTperUSDC sellPriceUSDTperUSDC totalGasUSD : ℚ) : CheckResult :=
  let sourceBalance := getPaperBalance s buyChain
  let minTradeAmountUSDT :=
    calculateMinimumTradeAmount profitThreshold buyPriceUSDTperUSDC
      sellPriceUSDTperUSDC totalGasUSD false
  if minTradeAmountUSDT = 0 then .ratioNotProfitable
  else
    let maxTradeAmountUSDT := floorQ (sourceBalance.usdt * (1 / 2))
    if maxTradeAmountUSDT < max minTradeAmountUSDT absoluteMinTradeAmount then
      .insufficientBalance
    else
      let tradeAmountUSDT :=
        min maxTradeAmountUSDT (max minTradeAmountUSDT absoluteMinTradeAmount)
      let usdcReceived := tradeAmountUSDT * buyPriceUSDTperUSDC
      let usdtReceived := usdcReceived / sellPriceUSDTperUSDC
      let grossProfitUSDT := usdtReceived - tradeAmountUSDT
      let netProfitUSD := grossProfitUSDT - totalGasUSD
      if profitThreshold < netProfitUSD then .execute tradeAmountUSDT
      else .belowThreshold tradeAmountUSDT

/-- `checkUSDCTargetedArbitrage` as a state transformer: the state reached
after the check and, when the check decides to trade, the call to
`executeUSDCTargetedArbitrage` with the sized amount (the execute function
re-queries the same cycle's gas cost, passed here as the same `totalGasUSD`). -/
def runUSDCTargetedCheck (profitThreshold : ℚ) (s : PaperState)
    (buyChain sellChain : Chain)
    (buyPriceUSDCperUSDT sellPriceUSDCperUSDT totalGasUSD : ℚ) : PaperState :=
  match checkUSDCTargetedArbitrage profitThreshold s buyChain
      buyPriceUSDCperUSDT sellPriceUSDCperUSDT totalGasUSD with
  | .execute tradeAmountUSDC =>
      executeUSDCTargetedArbitrage profitThreshold s buyChain sellChain
        buyPriceUSDCperUSDT sellPriceUSDCperUSDT tradeAmountUSDC totalGasUSD
  | _ => s

/-- `checkUSDTTargetedArbitrage` as a state transformer. -/
def runUSDTTargetedCheck (profitThreshold : ℚ) (s : PaperState)
    (buyChain sellChain : Chain)
    (buyPriceUSDTperUSDC sellPriceUSDTperUSDC totalGasUSD : ℚ) : PaperState :=
  match checkUSDTTargetedArbitrage profitThreshold s buyChain
      buyPriceUSDTperUSDC sellPriceUSDTperUSDC totalGasUSD with
  | .execute tradeAmountUSDT =>
      executeUSDTTargetedArbitrage profitThreshold s buyChain sellChain
        buyPriceUSDTperUSDC sellPriceUSDTperUSDC tradeAmountUSDT totalGasUSD
  | _ => s

/-- Pool metadata as far as the arbitrage logic consumes it: which of the two
stablecoins is `token0` of the pool (`PoolMetadata.token0.symbol`, compared
case-insensitively against the target token's symbol). -/
structure PoolMeta where
  token0 : Token
deriving DecidableEq, Repr

/-- A `lastPrices` entry of `getters.ts`: the two orientations of one pool
price (timestamp dropped). -/
structure ChainPrice where
  tokens0PerToken1 : ℚ
  tokens1PerToken0 : ℚ
deriving DecidableEq, Repr

/-- `determineTargetToken` of `arbitrage.ts`.  The `poolMetadata` argument is
taken (as in the source) but never consulted. -/
def determineTargetToken (poolMetadata : Chain → PoolMeta) (s : PaperState) :
    Token :=
  let avalancheBalance := getPaperBalance s .avalanche
  let sonicBalance := getPaperBalance s .sonic
  let combinedUSDC := avalancheBalance.usdc + sonicBalance.usdc
  let combinedUSDT := avalancheBalance.usdt + sonicBalance.usdt
  if combinedUSDC ≤ combinedUSDT then .USDC else .USDT

/-- The pure core of `checkArbitrageOpportunities` of `arbitrage.ts`: target
selection, token-index resolution, price projection, direction choice and
dispatch to the matching check.  The fetched `lastPrices` entries and the
cycle's `totalGasUSD` are parameters. -/
def checkArbitrageOpportunities (profitThreshold : ℚ)
    (poolMetadata : Chain → PoolMeta)
    (avalanchePrice sonicPrice : ChainPrice)
    (totalGasUSD : ℚ) (s : PaperState) : PaperState :=
  let targetToken := determineTargetToken poolMetadata s
  let avalancheTargetIndex : ℕ :=
    if (poolMetadata .avalanche).token0 = targetToken then 0 else 1
  let sonicTargetIndex : ℕ :=
    if (poolMetadata .sonic).token0 = targetToken then 0 else 1
  match targetToken with
  | .USDT =>
      let avalanchePriceUSDCperUSDT :=
        if avalancheTargetIndex = 1 then avalanchePrice.tokens0PerToken1
        else avalanchePrice.tokens1PerToken0
      let sonicPriceUSDCperUSDT :=
        if sonicTargetIndex = 1 then sonicPrice.tokens0PerToken1
        else sonicPrice.tokens1PerToken0
      let buyChain :=
        if avalanchePriceUSDCperUSDT < sonicPriceUSDCperUSDT then Chain.avalanche
        else Chain.sonic
      let sellChain :=
        if avalanchePriceUSDCperUSDT < sonicPriceUSDCperUSDT then Chain.sonic
        else Chain.avalanche
      let buyPriceUSDCperUSDT := min avalanchePriceUSDCperUSDT sonicPriceUSDCperUSDT
      let sellPriceUSDCperUSDT := max avalanchePriceUSDCperUSDT sonicPriceUSDCperUSDT
      runUSDCTargetedCheck profitThreshold s buyChain sellChain
        buyPriceUSDCperUSDT sellPriceUSDCperUSDT totalGasUSD
  | .USDC =>
      let avalanchePriceUSDTperUSDC :=
        if avalancheTargetIndex = 0 then avalanchePrice.tokens0PerToken1
        else avalanchePrice.tokens1PerToken0
      let sonicPriceUSDTperUSDC :=
        if sonicTargetIndex = 0 then sonicPrice.tokens0PerToken1
        else sonicPrice.tokens1PerToken0
      let buyChain :=
        if avalanchePriceUSDTperUSDC < sonicPriceUSDTperUSDC then Chain.avalanche
        else Chain.sonic
      let sellChain :=
        if avalanchePriceUSDTperUSDC < sonicPriceUSDTperUSDC then Chain.sonic
        else Chain.avalanche
      let buyPriceUSDTperUSDC := min avalanchePriceUSDTperUSDC sonicPriceUSDTperUSDC
      let sellPriceUSDTperUSDC := max avalanchePriceUSDTperUSDC sonicPriceUSDTperUSDC
      runUSDTTargetedCheck profitThreshold s buyChain sellChain
        buyPriceUSDTperUSDC sellPriceUSDTperUSDC totalGasUSD

/-- The per-cycle external observations one `checkArbitrageOpportunities`
call consumes: the two fetched pool prices and the cycle's total gas cost. -/
structure CycleInput where
  avalanchePrice : ChainPrice
  sonicPrice : ChainPrice
  totalGasUSD : ℚ
deriving DecidableEq, Repr

/-- Iterated arbitrage cycles: the effect on the paper ledger of running
`checkArbitrageOpportunities` once per input, in order. -/
def runCycles (profitThreshold : ℚ) (poolMetadata : Chain → PoolMeta)
    (inputs : List CycleInput) (s : PaperState) : PaperState :=
  inputs.foldl
    (fun st i =>
      checkArbitrageOpportunities profitThreshold poolMetadata
        i.avalanchePrice i.sonicPrice i.totalGasUSD st)
    s

/-- The native gas tokens of the two chains, the assets that appear in the
`PRICE_FEEDS` and `fallbackPrices` tables of `getters.ts`. -/
inductive NativeAsset where
  | AVAX
  | S
deriving DecidableEq, Repr

/-- Whether `PRICE_FEEDS[chain]?.[asset]` yields a feed address in
`getters.ts` (the table has exactly one entry per chain). -/
def hasPriceFeed (chain : Chain) (asset : NativeAsset) : Bool :=
  match chain, asset with
  | .avalanche, .AVAX => true
  | .sonic, .S => true
  | _, _ => false

/-- The `fallbackPrices` table inside the catch branch of `getUSDPrice`:
`{ avalanche: { AVAX: 25.0 }, sonic: { S: .0 } }`.  Note the sonic entry is
the literal `.0`, i.e. zero. -/
def fallbackPrices (chain : Chain) (asset : NativeAsset) : Option ℚ :=
  match chain, asset with
  | .avalanche, .AVAX => some 25
  | .sonic, .S => some 0
  | _, _ => none

/-- `CACHE_DURATION` of `getters.ts`, in milliseconds. -/
def CACHE_DURATION : ℕ := 30000

/-- The catch branch of `getUSDPrice`: consult `fallbackPrices`; the
JavaScript truthiness test `if (fallbackPrice)` accepts only a present,
non-zero price, otherwise the function rethrows ("No price available").
The cache is left untouched. -/
def usdPriceFallback (chain : Chain) (asset : NativeAsset)
    (cache : Option (ℚ × ℕ)) : Except Unit (ℚ × Option (ℚ × ℕ)) :=
  match fallbackPrices chain asset with
  | some fallbackPrice =>
      if fallbackPrice = 0 then Except.error ()
      else Except.ok (fallbackPrice, cache)
  | none => Except.error ()

/-- The cache-miss path of `getUSDPrice`: no feed address, or a failed
Chainlink read (`feedAnswer = none`), drops into the catch branch; a
successful read is cached under the current time and returned. -/
def getUSDPriceFresh (chain : Chain) (asset : NativeAsset)
    (cache : Option (ℚ × ℕ)) (now : ℕ) (feedAnswer : Option ℚ) :
    Except Unit (ℚ × Option (ℚ × ℕ)) :=
  if hasPriceFeed chain asset then
    match feedAnswer with
    | some price => Except.ok (price, some (price, now))
    | none => usdPriceFallback chain asset cache
  else usdPriceFallback chain asset cache

/-- `getUSDPrice` of `getters.ts`, for one `chain-asset` cache key.  `cache`
is the `priceCache` entry under that key, `now` is `Date.now()` in
milliseconds, and `feedAnswer` is the outcome of the external Chainlink
`latestRoundData` read (already scaled by its decimals); `none` models an
RPC failure.  Returns the price and the cache entry after the call, or an
error when the function throws. -/
def getUSDPrice (chain : Chain) (asset : NativeAsset)
    (cache : Option (ℚ × ℕ)) (now : ℕ) (feedAnswer : Option ℚ) :
    Except Unit (ℚ × Option (ℚ × ℕ)) :=
  match cache with
  | some (cachedPrice, cachedAt) =>
      if now - cachedAt < CACHE_DURATION then
        Except.ok (cachedPrice, some (cachedPrice, cachedAt))
      else getUSDPriceFresh chain asset (some (cachedPrice, cachedAt)) now feedAnswer
  | none => getUSDPriceFresh chain asset none now feedAnswer

/-- A `gasCosts` entry of `getters.ts` (timestamp dropped); the costs are in
wei, stored as JavaScript bigints. -/
structure GasCostEntry where
  gasPrice : ℕ
  estimatedGas : ℕ
  totalCost : ℕ
deriving DecidableEq, Repr

/-- The `chain === 'avalanche' ? 'AVAX' : 'S'` selection in
`getGasCostInUSD`. -/
def nativeTokenOf (chain : Chain) : NativeAsset :=
  match chain with
  | .avalanche => .AVAX
  | .sonic => .S

/-- `getGasCostInUSD` of `getters.ts`.  `gasCost` is the stored `gasCosts`
entry for the chain (`none` when absent, in which case the function warns
and returns 0); a `getUSDPrice` failure is caught and also yields 0. -/
def getGasCostInUSD (chain : Chain) (gasCost : Option GasCostEntry)
    (cache : Option (ℚ × ℕ)) (now : ℕ) (feedAnswer : Option ℚ) : ℚ :=
  match gasCost with
  | none => 0
  | some g =>
      let gasCostEth : ℚ := (g.totalCost : ℚ) / 1000000000000000000
      match getUSDPrice chain (nativeTokenOf chain) cache now feedAnswer with
      | Except.ok (nativeTokenPrice, _) => gasCostEth * nativeTokenPrice
      | Except.error _ => 0

/-- Spec formula for the minimum trade amount (§4.4 step 3 of the spec):
`minAmount = (gasCost + profitThreshold + ε) / (ratio - 1)` rounded up to the
asset's minimum increment, for the USDC-accumulating direction where
`ratio = sellPrice / buyPrice`.  Stated only for comparison with
`calculateMinimumTradeAmount`, which the source derives differently. -/
def specMinimumTradeAmountUSDC (profitThreshold buyPrice sellPrice gasCost : ℚ) :
    ℚ :=
  ceilTo6 ((gasCost + profitThreshold + ATOMIC_UNIT) / (sellPrice / buyPrice - 1))

/-- A ledger state in which USDT is the scarce asset system-wide
(40000 + 40000 USDT against 50000 + 50000 USDC), with an empty history. -/
def lowUSDTState : PaperState :=
  { avalanche := { usdc := 50000, usdt := 40000 }
    sonic := { usdc := 50000, usdt := 40000 }
    paperTrades := [] }

/-- Pool metadata with USDC as token0 in both pools. -/
def usdcToken0Meta : Chain → PoolMeta :=
  fun _ => { token0 := Token.USDC }

/-- Prices for the scenario against `lowUSDTState`: avalanche quotes
0.9 USDC per USDT (`tokens0PerToken1`), sonic quotes 1.1, a spread wide
enough to trade. -/
def avalancheScenarioPrice : ChainPrice := { tokens0PerToken1 := 9/10, tokens1PerToken0 := 10/9 }

/-- Sonic side of the scenario prices. -/
def sonicScenarioPrice : ChainPrice := { tokens0PerToken1 := 11/10, tokens1PerToken0 := 10/11 }

/-- The ledger after one `checkArbitrageOpportunities` cycle on
`lowUSDTState` with the scenario prices, total gas 0.10 USD and profit
threshold 0.50 USD. -/
def scenarioResultState : PaperState :=
  checkArbitrageOpportunities (1/2) usdcToken0Meta
    avalancheScenarioPrice sonicScenarioPrice (1/10) lowUSDTState

/-- The trade record that cycle appends: buy on avalanche at 0.9, sell on
sonic at 1.1, amount 100 USDC, gross profit 200/9 USDC, net 1991/90 USD. -/
def scenarioTrade : PaperTrade :=
  { sourceChain := .avalanche
    targetChain := .sonic
    sourcePrice := 9/10
    targetPrice := 11/10
    amount := 100
    profit := 200/9
    gasCost := 1/10
    netProfit := 1991/90
    status := .executed }

/-- The two token constructors are distinct (used to reduce the
symbol-comparison conditionals). -/
theorem usdc_ne_usdt : Token.USDC ≠ Token.USDT := by
  intro h
  exact Token.noConfusion h

/-- Evaluation helper: `ceilTo6` at a rational whose 6-decimal round-up is
known. -/
theorem ceilTo6_eq_of (x : ℚ) (n : ℤ) (h1 : (n : ℚ) - 1 < x * 1000000)
    (h2 : x * 1000000 ≤ (n : ℚ)) : ceilTo6 x = (n : ℚ) / 1000000 := by
  unfold ceilTo6
  rw [Int.ceil_eq_iff.mpr ⟨h1, h2⟩]

/-- Evaluation helper: `floorQ` at a rational whose floor is known. -/
theorem floorQ_eq_of (x : ℚ) (n : ℤ) (h1 : (n : ℚ) ≤ x)
    (h2 : x < (n : ℚ) + 1) : floorQ x = (n : ℚ) := by
  unfold floorQ
  rw [Int.floor_eq_iff.mpr ⟨h1, h2⟩]

/-- Claim C1: the spec says the minimum trade amount equals
`(totalGasUSD + profitThreshold + 1e-6) / (ratio - 1)` rounded up to 1e-6
(≈ 1500.0025 in the reference scenario).  The code instead sets
`requiredNetProfit = totalGasUSD + PROFIT_THRESHOLD + ATOMIC_UNIT` and then
adds `totalGasUSD` a second time in the numerator, contradicting its own
derivation comment: at buyPrice 0.9998, sellPrice 1.0002, gas 0.10 and
threshold 0.50 it returns 1749.6525, not the spec's 1499.7025. -/
theorem claim1_minimum_amount_gas_double_count :
    calculateMinimumTradeAmount (1/2) (0.9998) (1.0002) (0.1) true = 1749.6525 ∧
    specMinimumTradeAmountUSDC (1/2) (0.9998) (1.0002) (0.1) = 1499.7025 ∧
    calculateMinimumTradeAmount (1/2) (0.9998) (1.0002) (0.1) true ≠
      specMinimumTradeAmountUSDC (1/2) (0.9998) (1.0002) (0.1) := by
  have hcode : calculateMinimumTradeAmount (1/2) (0.9998) (1.0002) (0.1) true
      = ceilTo6 (3499304999 / 2000000) := by
    norm_num [calculateMinimumTradeAmount, ATOMIC_UNIT]
  have hspec : specMinimumTradeAmountUSDC (1/2) (0.9998) (1.0002) (0.1)
      = ceilTo6 (2999404999 / 2000000) := by
    norm_num [specMinimumTradeAmountUSDC, ATOMIC_UNIT]
  have ecode : ceilTo6 ((3499304999 : ℚ) / 2000000) = 1749.6525 := by
    rw [ceilTo6_eq_of _ 1749652500 (by norm_num) (by norm_num)]
    norm_num
  have espec : ceilTo6 ((2999404999 : ℚ) / 2000000) = 1499.7025 := by
    rw [ceilTo6_eq_of _ 1499702500 (by norm_num) (by norm_num)]
    norm_num
  rw [hcode, hspec, ecode, espec]
  norm_num

/-- The minimum trade amount the code computes in the `lowUSDTState`
scenario (buy 0.9, sell 1.1, gas 0.10, threshold 0.50). -/
theorem scenario_minimum_amount :
    calculateMinimumTradeAmount (1/2) (9/10) (11/10) (1/10) true = 3.150005 := by
  have h : calculateMinimumTradeAmount (1/2) (9/10) (11/10) (1/10) true
      = ceilTo6 (6300009 / 2000000) := by
    norm_num [calculateMinimumTradeAmount, ATOMIC_UNIT]
  rw [h, ceilTo6_eq_of _ 3150005 (by norm_num) (by norm_num)]
  norm_num

/-- The sizing check in the `lowUSDTState` scenario resolves to a trade of
100 USDC. -/
theorem scenario_check_result :
    checkUSDCTargetedArbitrage (1/2) lowUSDTState .avalanche (9/10) (11/10) (1/10)
      = .execute 100 := by
  have hfl : floorQ (25000 : ℚ) = 25000 :=
    floorQ_eq_of _ 25000 (by norm_num) (by norm_num)
  norm_num [checkUSDCTargetedArbitrage, scenario_minimum_amount, getPaperBalance,
    lowUSDTState, hfl, absoluteMinTradeAmount, min_def, max_def]

/-- The execute call in the `lowUSDTState` scenario produces exactly
`scenarioTrade` and moves only the two USDC fields. -/
theorem scenario_execute_result :
    executeUSDCTargetedArbitrage (1/2) lowUSDTState .avalanche .sonic
      (9/10) (11/10) 100 (1/10)
      = { avalanche := { usdc := 49900, usdt := 40000 }
          sonic := { usdc := 451100/9, usdt := 40000 }
          paperTrades := [scenarioTrade] } := by
  norm_num [executeUSDCTargetedArbitrage, getPaperBalance, updatePaperBalance,
    addPaperTrade, lowUSDTState, scenarioTrade]

/-- The whole-cycle result in the `lowUSDTState` scenario. -/
theorem scenario_cycle_result :
    scenarioResultState
      = { avalanche := { usdc := 49900, usdt := 40000 }
          sonic := { usdc := 451100/9, usdt := 40000 }
          paperTrades := [scenarioTrade] } := by
  have htt : determineTargetToken usdcToken0Meta lowUSDTState = Token.USDT := by
    norm_num [determineTargetToken, getPaperBalance, lowUSDTState, usdcToken0Meta]
  rw [scenarioResultState]
  rw [show checkArbitrageOpportunities (1/2) usdcToken0Meta avalancheScenarioPrice
        sonicScenarioPrice (1/10) lowUSDTState
      = runUSDCTargetedCheck (1/2) lowUSDTState .avalanche .sonic (9/10) (11/10) (1/10) by
    norm_num [checkArbitrageOpportunities, htt, usdcToken0Meta, usdc_ne_usdt,
      avalancheScenarioPrice, sonicScenarioPrice, min_def, max_def]]
  rw [runUSDCTargetedCheck, scenario_check_result]
  exact scenario_execute_result

/-- Claim C2: the spec says the cycle accumulates the scarce (target) asset.
In the code the dispatch is inverted: from `lowUSDTState` the selector picks
USDT as target, the cycle executes a trade (one record is appended), yet the
system-wide USDT total is unchanged and the USDC total strictly grows —
the executed trade accumulates the abundant asset, not the selected one. -/
theorem claim2_target_accumulation_inverted :
    determineTargetToken usdcToken0Meta lowUSDTState = Token.USDT ∧
    scenarioResultState.paperTrades = [scenarioTrade] ∧
    totalUSDT scenarioResultState = totalUSDT lowUSDTState ∧
    totalUSDC lowUSDTState < totalUSDC scenarioResultState := by
  refine ⟨?_, ?_, ?_, ?_⟩
  · norm_num [determineTargetToken, getPaperBalance, lowUSDTState, usdcToken0Meta]
  · rw [scenario_cycle_result]
  · rw [scenario_cycle_result]
    norm_num [totalUSDT, lowUSDTState]
  · rw [scenario_cycle_result]
    norm_num [totalUSDC, lowUSDTState]

/-- Reading a balance after updating the same chain. -/
theorem getPaperBalance_update_self (s : PaperState) (c : Chain) (u t : ℚ) :
    getPaperBalance (updatePaperBalance s c u t) c = { usdc := u, usdt := t } := by
  cases c <;> rfl

/-- Reading a balance after updating the other chain. -/
theorem getPaperBalance_update_other (s : PaperState) (c c2 : Chain) (u t : ℚ)
    (h : c ≠ c2) :
    getPaperBalance (updatePaperBalance s c u t) c2 = getPaperBalance s c2 := by
  cases c <;> cases c2 <;> first | rfl | exact absurd rfl h

/-- Recording a trade does not move balances. -/
theorem getPaperBalance_addPaperTrade (s : PaperState) (tr : PaperTrade)
    (c : Chain) :
    getPaperBalance (addPaperTrade s tr) c = getPaperBalance s c := by
  cases c <;> rfl

/-- Updating a balance does not touch the history. -/
theorem updatePaperBalance_paperTrades (s : PaperState) (c : Chain) (u t : ℚ) :
    (updatePaperBalance s c u t).paperTrades = s.paperTrades := by
  cases c <;> rfl

/-- The commit-time rejection branch of `executeUSDCTargetedArbitrage`. -/
theorem executeUSDC_rejected (thr : ℚ) (s : PaperState) (bc sc : Chain)
    (bp sp amt gas : ℚ) (hbal : (getPaperBalance s bc).usdc < amt) :
    executeUSDCTargetedArbitrage thr s bc sc bp sp amt gas = s := by
  simp only [executeUSDCTargetedArbitrage]
  rw [if_pos hbal]

/-- The unprofitable branch of `executeUSDCTargetedArbitrage`. -/
theorem executeUSDC_below (thr : ℚ) (s : PaperState) (bc sc : Chain)
    (bp sp amt gas : ℚ) (hbal : ¬ (getPaperBalance s bc).usdc < amt)
    (hnet : ¬ thr < amt / bp * sp - amt - gas) :
    executeUSDCTargetedArbitrage thr s bc sc bp sp amt gas = s := by
  simp only [executeUSDCTargetedArbitrage]
  rw [if_neg hbal, if_neg hnet]

/-- The executed branch of `executeUSDCTargetedArbitrage`, written out. -/
theorem executeUSDC_executed (thr : ℚ) (s : PaperState) (bc sc : Chain)
    (bp sp amt gas : ℚ) (hbal : ¬ (getPaperBalance s bc).usdc < amt)
    (hnet : thr < amt / bp * sp - amt - gas) :
    executeUSDCTargetedArbitrage thr s bc sc bp sp amt gas =
      updatePaperBalance
        (updatePaperBalance
          (addPaperTrade s
            { sourceChain := bc
              targetChain := sc
              sourcePrice := bp
              targetPrice := sp
              amount := amt
              profit := amt / bp * sp - amt
              gasCost := gas
              netProfit := amt / bp * sp - amt - gas
              status := .executed })
          bc ((getPaperBalance s bc).usdc - amt) (getPaperBalance s bc).usdt)
        sc ((getPaperBalance s sc).usdc + amt / bp * sp)
        (getPaperBalance s sc).usdt := by
  simp only [executeUSDCTargetedArbitrage]
  rw [if_neg hbal, if_pos hnet]

/-- The commit-time rejection branch of `executeUSDTTargetedArbitrage`. -/
theorem executeUSDT_rejected (thr : ℚ) (s : PaperState) (bc sc : Chain)
    (bp sp amt gas : ℚ) (hbal : (getPaperBalance s bc).usdt < amt) :
    executeUSDTTargetedArbitrage thr s bc sc bp sp amt gas = s := by
  simp only [executeUSDTTargetedArbitrage]
  rw [if_pos hbal]

/-- The unprofitable branch of `executeUSDTTargetedArbitrage`. -/
theorem executeUSDT_below (thr : ℚ) (s : PaperState) (bc sc : Chain)
    (bp sp amt gas : ℚ) (hbal : ¬ (getPaperBalance s bc).usdt < amt)
    (hnet : ¬ thr < amt * bp / sp - amt - gas) :
    executeUSDTTargetedArbitrage thr s bc sc bp sp amt gas = s := by
  simp only [executeUSDTTargetedArbitrage]
  rw [if_neg hbal, if_neg hnet]

/-- The executed branch of `executeUSDTTargetedArbitrage`, written out. -/
theorem executeUSDT_executed (thr : ℚ) (s : PaperState) (bc sc : Chain)
    (bp sp amt gas : ℚ) (hbal : ¬ (getPaperBalance s bc).usdt < amt)
    (hnet : thr < amt * bp / sp - amt - gas) :
    executeUSDTTargetedArbitrage thr s bc sc bp sp amt gas =
      updatePaperBalance
        (updatePaperBalance
          (addPaperTrade s
            { sourceChain := bc
              targetChain := sc
              sourcePrice := bp
              targetPrice := sp
              amount := amt
              profit := amt * bp / sp - amt
              gasCost := gas
              netProfit := amt * bp / sp - amt - gas
              status := .executed })
          bc (getPaperBalance s bc).usdc ((getPaperBalance s bc).usdt - amt))
        sc (getPaperBalance s sc).usdc
        ((getPaperBalance s sc).usdt + amt * bp / sp) := by
  simp only [executeUSDTTargetedArbitrage]
  rw [if_neg hbal, if_pos hnet]

/-- Claim C3: every executed trade debits the starting asset by the trade
amount on the buy chain, credits the received amount on the sell chain,
touches no other balance field, and so moves the system-wide base-plus-quote
sum by exactly the trade's gross profit, for both trade directions. -/
theorem claim3_ledger_conservation :
    (∀ thr : ℚ, ∀ s : PaperState, ∀ bc sc : Chain, ∀ bp sp amt gas : ℚ,
      bc ≠ sc →
      ¬ (getPaperBalance s bc).usdc < amt →
      thr < amt / bp * sp - amt - gas →
      (totalUSDC (executeUSDCTargetedArbitrage thr s bc sc bp sp amt gas) +
          totalUSDT (executeUSDCTargetedArbitrage thr s bc sc bp sp amt gas)
        = totalUSDC s + totalUSDT s + (amt / bp * sp - amt)) ∧
      (getPaperBalance (executeUSDCTargetedArbitrage thr s bc sc bp sp amt gas) bc).usdc
        = (getPaperBalance s bc).usdc - amt ∧
      (getPaperBalance (executeUSDCTargetedArbitrage thr s bc sc bp sp amt gas) sc).usdc
        = (getPaperBalance s sc).usdc + amt / bp * sp ∧
      (getPaperBalance (executeUSDCTargetedArbitrage thr s bc sc bp sp amt gas) bc).usdt
        = (getPaperBalance s bc).usdt ∧
      (getPaperBalance (executeUSDCTargetedArbitrage thr s bc sc bp sp amt gas) sc).usdt
        = (getPaperBalance s sc).usdt) ∧
    (∀ thr : ℚ, ∀ s : PaperState, ∀ bc sc : Chain, ∀ bp sp amt gas : ℚ,
      bc ≠ sc →
      ¬ (getPaperBalance s bc).usdt < amt →
      thr < amt * bp / sp - amt - gas →
      (totalUSDC (executeUSDTTargetedArbitrage thr s bc sc bp sp amt gas) +
          totalUSDT (executeUSDTTargetedArbitrage thr s bc sc bp sp amt gas)
        = totalUSDC s + totalUSDT s + (amt * bp / sp - amt)) ∧
      (getPaperBalance (executeUSDTTargetedArbitrage thr s bc sc bp sp amt gas) bc).usdt
        = (getPaperBalance s bc).usdt - amt ∧
      (getPaperBalance (executeUSDTTargetedArbitrage thr s bc sc bp sp amt gas) sc).usdt
        = (getPaperBalance s sc).usdt + amt * bp / sp ∧
      (getPaperBalance (executeUSDTTargetedArbitrage thr s bc sc bp sp amt gas) bc).usdc
        = (getPaperBalance s bc).usdc ∧
      (getPaperBalance (executeUSDTTargetedArbitrage thr s bc sc bp sp amt gas) sc).usdc
        = (getPaperBalance s sc).usdc) := by
  constructor
  · intro thr s bc sc bp sp amt gas hne hbal hnet
    rw [executeUSDC_executed thr s bc sc bp sp amt gas hbal hnet]
    cases bc <;> cases sc <;>
      first
      | exact absurd rfl hne
      | (refine ⟨?_, rfl, rfl, rfl, rfl⟩
         simp only [totalUSDC, totalUSDT, updatePaperBalance, addPaperTrade,
           getPaperBalance]
         ring)
  · intro thr s bc sc bp sp amt gas hne hbal hnet
    rw [executeUSDT_executed thr s bc sc bp sp amt gas hbal hnet]
    cases bc <;> cases sc <;>
      first
      | exact absurd rfl hne
      | (refine ⟨?_, rfl, rfl, rfl, rfl⟩
         simp only [totalUSDC, totalUSDT, updatePaperBalance, addPaperTrade,
           getPaperBalance]
         ring)

/-- Witness for C3: the conservation identity at the `lowUSDTState`
scenario trade. -/
theorem claim3_ledger_conservation_witness :
    totalUSDC (executeUSDCTargetedArbitrage (1/2) lowUSDTState .avalanche .sonic
        (9/10) (11/10) 100 (1/10)) +
      totalUSDT (executeUSDCTargetedArbitrage (1/2) lowUSDTState .avalanche .sonic
        (9/10) (11/10) 100 (1/10))
      = totalUSDC lowUSDTState + totalUSDT lowUSDTState +
        ((100 : ℚ) / (9/10) * (11/10) - 100) :=
  ((claim3_ledger_conservation.1 (1/2) lowUSDTState .avalanche .sonic
    (9/10) (11/10) 100 (1/10) (by decide)
    (by norm_num [getPaperBalance, lowUSDTState])
    (by norm_num)).1)

/-- Claim C4: applying a trade is atomic.  When the commit-time balance
re-check fails, the state (balances and history) is returned untouched;
when the trade executes, the buy-chain debit and sell-chain credit both
happen and exactly one record is appended, in both trade directions. -/
theorem claim4_atomic_commit :
    (∀ thr : ℚ, ∀ s : PaperState, ∀ bc sc : Chain, ∀ bp sp amt gas : ℚ,
      (getPaperBalance s bc).usdc < amt →
      executeUSDCTargetedArbitrage thr s bc sc bp sp amt gas = s) ∧
    (∀ thr : ℚ, ∀ s : PaperState, ∀ bc sc : Chain, ∀ bp sp amt gas : ℚ,
      bc ≠ sc →
      ¬ (getPaperBalance s bc).usdc < amt →
      thr < amt / bp * sp - amt - gas →
      (executeUSDCTargetedArbitrage thr s bc sc bp sp amt gas).paperTrades
        = s.paperTrades ++
          [{ sourceChain := bc
             targetChain := sc
             sourcePrice := bp
             targetPrice := sp
             amount := amt
             profit := amt / bp * sp - amt
             gasCost := gas
             netProfit := amt / bp * sp - amt - gas
             status := .executed }] ∧
      getPaperBalance (executeUSDCTargetedArbitrage thr s bc sc bp sp amt gas) bc
        = { usdc := (getPaperBalance s bc).usdc - amt
            usdt := (getPaperBalance s bc).usdt } ∧
      getPaperBalance (executeUSDCTargetedArbitrage thr s bc sc bp sp amt gas) sc
        = { usdc := (getPaperBalance s sc).usdc + amt / bp * sp
            usdt := (getPaperBalance s sc).usdt }) ∧
    (∀ thr : ℚ, ∀ s : PaperState, ∀ bc sc : Chain, ∀ bp sp amt gas : ℚ,
      (getPaperBalance s bc).usdt < amt →
      executeUSDTTargetedArbitrage thr s bc sc bp sp amt gas = s) ∧
    (∀ thr : ℚ, ∀ s : PaperState, ∀ bc sc : Chain, ∀ bp sp amt gas : ℚ,
      bc ≠ sc →
      ¬ (getPaperBalance s bc).usdt < amt →
      thr < amt * bp / sp - amt - gas →
      (executeUSDTTargetedArbitrage thr s bc sc bp sp amt gas).paperTrades
        = s.paperTrades ++
          [{ sourceChain := bc
             targetChain := sc
             sourcePrice := bp
             targetPrice := sp
             amount := amt
             profit := amt * bp / sp - amt
             gasCost := gas
             netProfit := amt * bp / sp - amt - gas
             status := .executed }] ∧
      getPaperBalance (executeUSDTTargetedArbitrage thr s bc sc bp sp amt gas) bc
        = { usdc := (getPaperBalance s bc).usdc
            usdt := (getPaperBalance s bc).usdt - amt } ∧
      getPaperBalance (executeUSDTTargetedArbitrage thr s bc sc bp sp amt gas) sc
        = { usdc := (getPaperBalance s sc).usdc
            usdt := (getPaperBalance s sc).usdt + amt * bp / sp }) := by
  refine ⟨?_, ?_, ?_, ?_⟩
  · intro thr s bc sc bp sp amt gas hbal
    exact executeUSDC_rejected thr s bc sc bp sp amt gas hbal
  · intro thr s bc sc bp sp amt gas hne hbal hnet
    rw [executeUSDC_executed thr s bc sc bp sp amt gas hbal hnet]
    refine ⟨?_, ?_, ?_⟩
    · rw [updatePaperBalance_paperTrades, updatePaperBalance_paperTrades]
      rfl
    · rw [getPaperBalance_update_other _ sc bc _ _ (Ne.symm hne),
        getPaperBalance_update_self]
    · rw [getPaperBalance_update_self]
  · intro thr s bc sc bp sp amt gas hbal
    exact executeUSDT_rejected thr s bc sc bp sp amt gas hbal
  · intro thr s bc sc bp sp amt gas hne hbal hnet
    rw [executeUSDT_executed thr s bc sc bp sp amt gas hbal hnet]
    refine ⟨?_, ?_, ?_⟩
    · rw [updatePaperBalance_paperTrades, updatePaperBalance_paperTrades]
      rfl
    · rw [getPaperBalance_update_other _ sc bc _ _ (Ne.symm hne),
        getPaperBalance_update_self]
    · rw [getPaperBalance_update_self]

/-- Witness for C4: the commit-time re-check rejects a 100000-USDC trade
against a 50000-USDC balance and leaves the state untouched. -/
theorem claim4_atomic_commit_witness :
    executeUSDCTargetedArbitrage (1/2) lowUSDTState .avalanche .sonic
      (9/10) (11/10) 100000 (1/10) = lowUSDTState :=
  claim4_atomic_commit.1 (1/2) lowUSDTState .avalanche .sonic
    (9/10) (11/10) 100000 (1/10)
    (by norm_num [getPaperBalance, lowUSDTState])

/-- A state whose buy-chain USDC holding (100) is too small for the
absolute minimum trade size after halving. -/
def lowBalanceState : PaperState :=
  { avalanche := { usdc := 100, usdt := 100 }
    sonic := { usdc := 100, usdt := 100 }
    paperTrades := [] }

/-- Claim C5: with a positive computed minimum, the USDC-targeted check
either reports insufficient balance (exactly when
`maxAmount < max(minAmount, absMin)` with `maxAmount = floor(balance * 0.5)`)
or goes on to use the trade size `min(maxAmount, max(minAmount, absMin))`. -/
theorem claim5_trade_sizing :
    ∀ thr : ℚ, ∀ s : PaperState, ∀ bc sc : Chain, ∀ bp sp gas : ℚ,
      0 < calculateMinimumTradeAmount thr bp sp gas true →
      (floorQ ((getPaperBalance s bc).usdc * (1/2)) <
          max (calculateMinimumTradeAmount thr bp sp gas true) absoluteMinTradeAmount →
        checkUSDCTargetedArbitrage thr s bc bp sp gas = .insufficientBalance ∧
        runUSDCTargetedCheck thr s bc sc bp sp gas = s) ∧
      (¬ floorQ ((getPaperBalance s bc).usdc * (1/2)) <
          max (calculateMinimumTradeAmount thr bp sp gas true) absoluteMinTradeAmount →
        (checkUSDCTargetedArbitrage thr s bc bp sp gas
            = .execute (min (floorQ ((getPaperBalance s bc).usdc * (1/2)))
                (max (calculateMinimumTradeAmount thr bp sp gas true)
                  absoluteMinTradeAmount)) ∨
         checkUSDCTargetedArbitrage thr s bc bp sp gas
            = .belowThreshold (min (floorQ ((getPaperBalance s bc).usdc * (1/2)))
                (max (calculateMinimumTradeAmount thr bp sp gas true)
                  absoluteMinTradeAmount)))) := by
  intro thr s bc sc bp sp gas hpos
  constructor
  · intro h
    have hc : checkUSDCTargetedArbitrage thr s bc bp sp gas
        = .insufficientBalance := by
      simp only [checkUSDCTargetedArbitrage]
      rw [if_neg hpos.ne', if_pos h]
    exact ⟨hc, by simp [runUSDCTargetedCheck, hc]⟩
  · intro h
    simp only [checkUSDCTargetedArbitrage]
    rw [if_neg hpos.ne', if_neg h]
    split_ifs
    · exact Or.inl rfl
    · exact Or.inr rfl

/-- Witness for C5: at a 100-USDC balance the halved cap (50) is below the
absolute minimum (100), so the check reports insufficient balance. -/
theorem claim5_trade_sizing_witness :
    checkUSDCTargetedArbitrage (1/2) lowBalanceState .avalanche
      (9/10) (11/10) (1/10) = .insufficientBalance := by
  have hpos : 0 < calculateMinimumTradeAmount (1/2) (9/10) (11/10) (1/10) true := by
    rw [scenario_minimum_amount]
    norm_num
  have hfl : floorQ (50 : ℚ) = 50 :=
    floorQ_eq_of _ 50 (by norm_num) (by norm_num)
  exact ((claim5_trade_sizing (1/2) lowBalanceState .avalanche .sonic
    (9/10) (11/10) (1/10) hpos).1
    (by norm_num [getPaperBalance, lowBalanceState, hfl, scenario_minimum_amount,
      absoluteMinTradeAmount, max_def])).1

/-- Claim C6: a price ratio of at most one (in particular equal prices on
the two chains) makes both directions report no opportunity: the minimum
amount degenerates to 0, the check stops at the ratio guard, and the ledger
(balances and history) is unchanged. -/
theorem claim6_no_opportunity_on_equal_prices :
    ∀ thr : ℚ, ∀ s : PaperState, ∀ bc sc : Chain, ∀ bp sp gas : ℚ,
      (sp / bp ≤ 1 →
        calculateMinimumTradeAmount thr bp sp gas true = 0 ∧
        checkUSDCTargetedArbitrage thr s bc bp sp gas = .ratioNotProfitable ∧
        runUSDCTargetedCheck thr s bc sc bp sp gas = s) ∧
      (bp / sp ≤ 1 →
        calculateMinimumTradeAmount thr bp sp gas false = 0 ∧
        checkUSDTTargetedArbitrage thr s bc bp sp gas = .ratioNotProfitable ∧
        runUSDTTargetedCheck thr s bc sc bp sp gas = s) := by
  intro thr s bc sc bp sp gas
  constructor
  · intro h
    have hmin : calculateMinimumTradeAmount thr bp sp gas true = 0 := by
      simp [calculateMinimumTradeAmount, h]
    have hcheck : checkUSDCTargetedArbitrage thr s bc bp sp gas
        = .ratioNotProfitable := by
      simp [checkUSDCTargetedArbitrage, hmin]
    refine ⟨hmin, hcheck, ?_⟩
    simp [runUSDCTargetedCheck, hcheck]
  · intro h
    have hmin : calculateMinimumTradeAmount thr bp sp gas false = 0 := by
      simp [calculateMinimumTradeAmount, h]
    have hcheck : checkUSDTTargetedArbitrage thr s bc bp sp gas
        = .ratioNotProfitable := by
      simp [checkUSDTTargetedArbitrage, hmin]
    refine ⟨hmin, hcheck, ?_⟩
    simp [runUSDTTargetedCheck, hcheck]

/-- Witness for C6: equal prices (both 1) leave the scenario ledger
untouched. -/
theorem claim6_no_opportunity_witness :
    runUSDCTargetedCheck (1/2) lowUSDTState .avalanche .sonic 1 1 (1/10)
      = lowUSDTState :=
  ((claim6_no_opportunity_on_equal_prices (1/2) lowUSDTState .avalanche .sonic
    1 1 (1/10)).1 (by norm_num)).2.2

/-- Claim C7: the target-token selector returns the asset with the smaller
combined total across both chains, returns USDC on an exact tie, and its
result does not depend on the pool-metadata argument. -/
theorem claim7_target_token_selector :
    ∀ poolMetadata : Chain → PoolMeta, ∀ s : PaperState,
      (totalUSDC s < totalUSDT s →
        determineTargetToken poolMetadata s = Token.USDC) ∧
      (totalUSDC s = totalUSDT s →
        determineTargetToken poolMetadata s = Token.USDC) ∧
      (totalUSDT s < totalUSDC s →
        determineTargetToken poolMetadata s = Token.USDT) ∧
      (∀ poolMetadata2 : Chain → PoolMeta,
        determineTargetToken poolMetadata2 s = determineTargetToken poolMetadata s) := by
  intro poolMetadata s
  refine ⟨?_, ?_, ?_, ?_⟩
  · intro h
    simp only [totalUSDC, totalUSDT] at h
    simp only [determineTargetToken, getPaperBalance]
    rw [if_pos (le_of_lt h)]
  · intro h
    simp only [totalUSDC, totalUSDT] at h
    simp only [determineTargetToken, getPaperBalance]
    rw [if_pos (le_of_eq h)]
  · intro h
    simp only [totalUSDC, totalUSDT] at h
    simp only [determineTargetToken, getPaperBalance]
    rw [if_neg (not_le.mpr h)]
  · intro poolMetadata2
    rfl

/-- Witness for C7: with 80000 total USDT against 100000 total USDC the
selector returns USDT. -/
theorem claim7_target_token_selector_witness :
    determineTargetToken (fun _ => { token0 := Token.USDT }) lowUSDTState
      = Token.USDT :=
  (claim7_target_token_selector (fun _ => { token0 := Token.USDT })
    lowUSDTState).2.2.1 (by norm_num [totalUSDC, totalUSDT, lowUSDTState])

/-- Claim C8 counterexample: the claim says a failed native-token price
lookup falls back to a static configured positive price for every chain.
For sonic the configured fallback is the literal `.0`, i.e. zero, which the
truthiness check `if (fallbackPrice)` treats as absent: with an empty cache
and a failed feed read, `getUSDPrice` for sonic throws instead of returning
a fallback price. -/
theorem claim8_gas_fallback_counterexample :
    getUSDPrice Chain.sonic NativeAsset.S none 0 none = Except.error () ∧
    fallbackPrices Chain.sonic NativeAsset.S = some 0 :=
  ⟨rfl, rfl⟩

/-- Claim C8 (amended): on lookup failure avalanche falls back to the
configured positive price 25 and the gas-cost estimate still returns;
sonic's configured fallback 0 is rejected by the truthiness check, so its
price lookup fails and `getGasCostInUSD` returns 0 from its catch handler;
a successful lookup is cached under the current time, and a cache entry
younger than 30 seconds is returned without consulting the feed. -/
theorem claim8_gas_fallback_amended :
    (∀ now : ℕ, getUSDPrice Chain.avalanche NativeAsset.AVAX none now none
        = Except.ok (25, none)) ∧
    (∀ now : ℕ, ∀ g : GasCostEntry,
        getGasCostInUSD Chain.avalanche (some g) none now none
          = (g.totalCost : ℚ) / 1000000000000000000 * 25) ∧
    (∀ now : ℕ, getUSDPrice Chain.sonic NativeAsset.S none now none
        = Except.error ()) ∧
    (∀ now : ℕ, ∀ g : GasCostEntry,
        getGasCostInUSD Chain.sonic (some g) none now none = 0) ∧
    (∀ chain : Chain, ∀ asset : NativeAsset, ∀ now : ℕ, ∀ p : ℚ,
        hasPriceFeed chain asset = true →
        getUSDPrice chain asset none now (some p)
          = Except.ok (p, some (p, now))) ∧
    (∀ chain : Chain, ∀ asset : NativeAsset, ∀ p : ℚ, ∀ cachedAt now2 : ℕ,
        ∀ feed : Option ℚ,
        now2 - cachedAt < CACHE_DURATION →
        getUSDPrice chain asset (some (p, cachedAt)) now2 feed
          = Except.ok (p, some (p, cachedAt))) := by
  have hav : ∀ now : ℕ,
      getUSDPrice Chain.avalanche NativeAsset.AVAX none now none
        = Except.ok (25, none) := fun _ => rfl
  have hso : ∀ now : ℕ,
      getUSDPrice Chain.sonic NativeAsset.S none now none
        = Except.error () := fun _ => rfl
  refine ⟨hav, ?_, hso, ?_, ?_, ?_⟩
  · intro now g
    simp [getGasCostInUSD, nativeTokenOf, hav now]
  · intro now g
    simp [getGasCostInUSD, nativeTokenOf, hso now]
  · intro chain asset now p hfeed
    simp [getUSDPrice, getUSDPriceFresh, hfeed]
  · intro chain asset p cachedAt now2 feed h
    simp [getUSDPrice, h]

/-- Witness for C8 (amended): a 25-USD AVAX price cached at time 0 is still
served at 29999 ms without consulting the feed. -/
theorem claim8_gas_fallback_witness :
    getUSDPrice Chain.avalanche NativeAsset.AVAX (some (25, 0)) 29999 none
      = Except.ok (25, some (25, 0)) :=
  claim8_gas_fallback_amended.2.2.2.2.2 Chain.avalanche NativeAsset.AVAX
    25 0 29999 none (by norm_num [CACHE_DURATION])

/-- All four ledger balance fields are non-negative. -/
def NonnegState (s : PaperState) : Prop :=
  0 ≤ s.avalanche.usdc ∧ 0 ≤ s.avalanche.usdt ∧
    0 ≤ s.sonic.usdc ∧ 0 ≤ s.sonic.usdt

/-- Both orientations of a fetched pool price are non-negative. -/
def NonnegPrice (p : ChainPrice) : Prop :=
  0 ≤ p.tokens0PerToken1 ∧ 0 ≤ p.tokens1PerToken0

/-- The USDC holding of any chain is non-negative in a non-negative state. -/
theorem usdc_nonneg_of (s : PaperState) (c : Chain) (hs : NonnegState s) :
    0 ≤ (getPaperBalance s c).usdc := by
  cases c
  · exact hs.1
  · exact hs.2.2.1

/-- A conditional of two non-negative rationals is non-negative. -/
theorem ite_nonneg {c : Prop} [Decidable c] {a b : ℚ} (ha : 0 ≤ a)
    (hb : 0 ≤ b) : 0 ≤ if c then a else b := by
  split_ifs <;> assumption

/-- Executing a USDC-targeted trade preserves balance non-negativity. -/
theorem executeUSDC_nonneg (thr : ℚ) (s : PaperState) (bc sc : Chain)
    (bp sp amt gas : ℚ) (hs : NonnegState s) (hbp : 0 ≤ bp) (hsp : 0 ≤ sp)
    (hamt : 0 ≤ amt) :
    NonnegState (executeUSDCTargetedArbitrage thr s bc sc bp sp amt gas) := by
  have hrecv : 0 ≤ amt / bp * sp := mul_nonneg (div_nonneg hamt hbp) hsp
  obtain ⟨h1, h2, h3, h4⟩ := hs
  simp only [executeUSDCTargetedArbitrage]
  split_ifs with hbal hnet
  · exact ⟨h1, h2, h3, h4⟩
  · push_neg at hbal
    cases bc <;> cases sc <;>
      simp only [getPaperBalance, updatePaperBalance, addPaperTrade,
        NonnegState] at hbal ⊢ <;>
      exact ⟨by linarith, by linarith, by linarith, by linarith⟩
  · exact ⟨h1, h2, h3, h4⟩

/-- Executing a USDT-targeted trade preserves balance non-negativity. -/
theorem executeUSDT_nonneg (thr : ℚ) (s : PaperState) (bc sc : Chain)
    (bp sp amt gas : ℚ) (hs : NonnegState s) (hbp : 0 ≤ bp) (hsp : 0 ≤ sp)
    (hamt : 0 ≤ amt) :
    NonnegState (executeUSDTTargetedArbitrage thr s bc sc bp sp amt gas) := by
  have hrecv : 0 ≤ amt * bp / sp := div_nonneg (mul_nonneg hamt hbp) hsp
  obtain ⟨h1, h2, h3, h4⟩ := hs
  simp only [executeUSDTTargetedArbitrage]
  split_ifs with hbal hnet
  · exact ⟨h1, h2, h3, h4⟩
  · push_neg at hbal
    cases bc <;> cases sc <;>
      simp only [getPaperBalance, updatePaperBalance, addPaperTrade,
        NonnegState] at hbal ⊢ <;>
      exact ⟨by linarith, by linarith, by linarith, by linarith⟩
  · exact ⟨h1, h2, h3, h4⟩

/-- When the USDC-targeted check decides to trade, the amount it passes to
the execute call is the capped sizing expression. -/
theorem checkUSDC_execute_amount (thr : ℚ) (s : PaperState) (bc : Chain)
    (bp sp gas a : ℚ)
    (h : checkUSDCTargetedArbitrage thr s bc bp sp gas = .execute a) :
    a = min (floorQ ((getPaperBalance s bc).usdc * (1/2)))
        (max (calculateMinimumTradeAmount thr bp sp gas true)
          absoluteMinTradeAmount) := by
  simp only [checkUSDCTargetedArbitrage] at h
  split_ifs at h <;>
    first
      | exact CheckResult.noConfusion h
      | (injection h with h2; exact h2.symm)

/-- When the USDT-targeted check decides to trade, the amount it passes to
the execute call is the capped sizing expression. -/
theorem checkUSDT_execute_amount (thr : ℚ) (s : PaperState) (bc : Chain)
    (bp sp gas a : ℚ)
    (h : checkUSDTTargetedArbitrage thr s bc bp sp gas = .execute a) :
    a = min (floorQ ((getPaperBalance s bc).usdt * (1/2)))
        (max (calculateMinimumTradeAmount thr bp sp gas false)
          absoluteMinTradeAmount) := by
  simp only [checkUSDTTargetedArbitrage] at h
  split_ifs at h <;>
    first
      | exact CheckResult.noConfusion h
      | (injection h with h2; exact h2.symm)

/-- The sizing expression is non-negative whenever the halved balance is. -/
theorem sizing_nonneg (bal minAmount : ℚ) (hbal : 0 ≤ bal) :
    0 ≤ min (floorQ (bal * (1/2))) (max minAmount absoluteMinTradeAmount) := by
  refine le_min ?_ ?_
  · unfold floorQ
    have h : (0 : ℤ) ≤ ⌊bal * (1/2)⌋ :=
      Int.floor_nonneg.mpr (mul_nonneg hbal (by norm_num))
    exact_mod_cast h
  · exact le_trans (by norm_num [absoluteMinTradeAmount]) (le_max_right _ _)

/-- The USDC-targeted check-then-execute pipeline preserves balance
non-negativity. -/
theorem runUSDC_nonneg (thr : ℚ) (s : PaperState) (bc sc : Chain)
    (bp sp gas : ℚ) (hs : NonnegState s) (hbp : 0 ≤ bp) (hsp : 0 ≤ sp) :
    NonnegState (runUSDCTargetedCheck thr s bc sc bp sp gas) := by
  simp only [runUSDCTargetedCheck]
  cases hc : checkUSDCTargetedArbitrage thr s bc bp sp gas with
  | ratioNotProfitable => exact hs
  | insufficientBalance => exact hs
  | belowThreshold a => exact hs
  | execute a =>
      have ha : 0 ≤ a := by
        rw [checkUSDC_execute_amount thr s bc bp sp gas a hc]
        exact sizing_nonneg _ _ (usdc_nonneg_of s bc hs)
      exact executeUSDC_nonneg thr s bc sc bp sp a gas hs hbp hsp ha

/-- The USDT holding of any chain is non-negative in a non-negative state. -/
theorem usdt_nonneg_of (s : PaperState) (c : Chain) (hs : NonnegState s) :
    0 ≤ (getPaperBalance s c).usdt := by
  cases c
  · exact hs.2.1
  · exact hs.2.2.2

/-- The USDT-targeted check-then-execute pipeline preserves balance
non-negativity. -/
theorem runUSDT_nonneg (thr : ℚ) (s : PaperState) (bc sc : Chain)
    (bp sp gas : ℚ) (hs : NonnegState s) (hbp : 0 ≤ bp) (hsp : 0 ≤ sp) :
    NonnegState (runUSDTTargetedCheck thr s bc sc bp sp gas) := by
  simp only [runUSDTTargetedCheck]
  cases hc : checkUSDTTargetedArbitrage thr s bc bp sp gas with
  | ratioNotProfitable => exact hs
  | insufficientBalance => exact hs
  | belowThreshold a => exact hs
  | execute a =>
      have ha : 0 ≤ a := by
        rw [checkUSDT_execute_amount thr s bc bp sp gas a hc]
        exact sizing_nonneg _ _ (usdt_nonneg_of s bc hs)
      exact executeUSDT_nonneg thr s bc sc bp sp a gas hs hbp hsp ha

/-- One arbitrage cycle preserves balance non-negativity when the fetched
prices are non-negative. -/
theorem checkArb_nonneg (thr : ℚ) (poolMetadata : Chain → PoolMeta)
    (pA pS : ChainPrice) (gas : ℚ) (s : PaperState)
    (hs : NonnegState s) (hA : NonnegPrice pA) (hB : NonnegPrice pS) :
    NonnegState (checkArbitrageOpportunities thr poolMetadata pA pS gas s) := by
  simp only [checkArbitrageOpportunities]
  cases determineTargetToken poolMetadata s with
  | USDT =>
      exact runUSDC_nonneg thr s _ _ _ _ gas hs
        (le_min (ite_nonneg hA.1 hA.2) (ite_nonneg hB.1 hB.2))
        (le_trans (ite_nonneg hA.1 hA.2) (le_max_left _ _))
  | USDC =>
      exact runUSDT_nonneg thr s _ _ _ _ gas hs
        (le_min (ite_nonneg hA.1 hA.2) (ite_nonneg hB.1 hB.2))
        (le_trans (ite_nonneg hA.1 hA.2) (le_max_left _ _))

/-- Any sequence of arbitrage cycles preserves balance non-negativity. -/
theorem runCycles_nonneg (thr : ℚ) (poolMetadata : Chain → PoolMeta) :
    ∀ inputs : List CycleInput, ∀ s : PaperState, NonnegState s →
      (∀ i ∈ inputs, NonnegPrice i.avalanchePrice ∧ NonnegPrice i.sonicPrice) →
      NonnegState (runCycles thr poolMetadata inputs s) := by
  intro inputs
  induction inputs with
  | nil => intro s hs _; exact hs
  | cons i rest ih =>
      intro s hs hin
      have hstep := checkArb_nonneg thr poolMetadata i.avalanchePrice
        i.sonicPrice i.totalGasUSD s hs (hin i (by simp)).1 (hin i (by simp)).2
      exact ih _ hstep (fun j hj => hin j (by simp [hj]))

/-- Claim C9: the seed allocation is non-negative, every run of arbitrage
cycles from a non-negative state with non-negative prices keeps all four
balance fields non-negative, and a trade that the commit-time check finds
unaffordable is rejected with no mutation (never clamped after the fact). -/
theorem claim9_nonnegativity :
    NonnegState initialPaperBalances ∧
    (∀ thr : ℚ, ∀ poolMetadata : Chain → PoolMeta, ∀ inputs : List CycleInput,
      ∀ s : PaperState, NonnegState s →
      (∀ i ∈ inputs, NonnegPrice i.avalanchePrice ∧ NonnegPrice i.sonicPrice) →
      NonnegState (runCycles thr poolMetadata inputs s)) ∧
    (∀ thr : ℚ, ∀ s : PaperState, ∀ bc sc : Chain, ∀ bp sp amt gas : ℚ,
      (getPaperBalance s bc).usdc < amt →
      executeUSDCTargetedArbitrage thr s bc sc bp sp amt gas = s) ∧
    (∀ thr : ℚ, ∀ s : PaperState, ∀ bc sc : Chain, ∀ bp sp amt gas : ℚ,
      (getPaperBalance s bc).usdt < amt →
      executeUSDTTargetedArbitrage thr s bc sc bp sp amt gas = s) := by
  refine ⟨?_, ?_, ?_, ?_⟩
  · exact ⟨by norm_num [initialPaperBalances], by norm_num [initialPaperBalances],
      by norm_num [initialPaperBalances], by norm_num [initialPaperBalances]⟩
  · intro thr poolMetadata inputs s hs hin
    exact runCycles_nonneg thr poolMetadata inputs s hs hin
  · intro thr s bc sc bp sp amt gas hbal
    exact executeUSDC_rejected thr s bc sc bp sp amt gas hbal
  · intro thr s bc sc bp sp amt gas hbal
    exact executeUSDT_rejected thr s bc sc bp sp amt gas hbal

/-- The cycle input of the `lowUSDTState` scenario. -/
def scenarioInput : CycleInput :=
  { avalanchePrice := avalancheScenarioPrice
    sonicPrice := sonicScenarioPrice
    totalGasUSD := 1/10 }

/-- Witness for C9: the scenario cycle keeps every balance non-negative. -/
theorem claim9_nonnegativity_witness :
    NonnegState (runCycles (1/2) usdcToken0Meta [scenarioInput] lowUSDTState) :=
  claim9_nonnegativity.2.1 (1/2) usdcToken0Meta [scenarioInput] lowUSDTState
    (by exact ⟨by norm_num [lowUSDTState], by norm_num [lowUSDTState],
      by norm_num [lowUSDTState], by norm_num [lowUSDTState]⟩)
    (by
      intro i hi
      simp only [List.mem_singleton] at hi
      subst hi
      exact ⟨⟨by norm_num [scenarioInput, avalancheScenarioPrice],
          by norm_num [scenarioInput, avalancheScenarioPrice]⟩,
        ⟨by norm_num [scenarioInput, sonicScenarioPrice],
          by norm_num [scenarioInput, sonicScenarioPrice]⟩⟩)

/-- The property every recorded trade must satisfy: status `executed` and
net profit strictly above the configured threshold. -/
def RecordOk (thr : ℚ) (tr : PaperTrade) : Prop :=
  tr.status = .executed ∧ thr < tr.netProfit

/-- A USDC-targeted execute call appends only well-formed records. -/
theorem executeUSDC_trades_ok (thr : ℚ) (s : PaperState) (bc sc : Chain)
    (bp sp amt gas : ℚ) :
    ∃ suffix : List PaperTrade,
      (executeUSDCTargetedArbitrage thr s bc sc bp sp amt gas).paperTrades
        = s.paperTrades ++ suffix ∧ ∀ tr ∈ suffix, RecordOk thr tr := by
  simp only [executeUSDCTargetedArbitrage]
  split_ifs with hbal hnet
  · exact ⟨[], by simp, by simp⟩
  · refine ⟨[{ sourceChain := bc
               targetChain := sc
               sourcePrice := bp
               targetPrice := sp
               amount := amt
               profit := amt / bp * sp - amt
               gasCost := gas
               netProfit := amt / bp * sp - amt - gas
               status := .executed }], ?_, ?_⟩
    · rw [updatePaperBalance_paperTrades, updatePaperBalance_paperTrades]
      rfl
    · intro tr htr
      rw [List.mem_singleton] at htr
      subst htr
      exact ⟨rfl, hnet⟩
  · exact ⟨[], by simp, by simp⟩

/-- A USDT-targeted execute call appends only well-formed records. -/
theorem executeUSDT_trades_ok (thr : ℚ) (s : PaperState) (bc sc : Chain)
    (bp sp amt gas : ℚ) :
    ∃ suffix : List PaperTrade,
      (executeUSDTTargetedArbitrage thr s bc sc bp sp amt gas).paperTrades
        = s.paperTrades ++ suffix ∧ ∀ tr ∈ suffix, RecordOk thr tr := by
  simp only [executeUSDTTargetedArbitrage]
  split_ifs with hbal hnet
  · exact ⟨[], by simp, by simp⟩
  · refine ⟨[{ sourceChain := bc
               targetChain := sc
               sourcePrice := bp
               targetPrice := sp
               amount := amt
               profit := amt * bp / sp - amt
               gasCost := gas
               netProfit := amt * bp / sp - amt - gas
               status := .executed }], ?_, ?_⟩
    · rw [updatePaperBalance_paperTrades, updatePaperBalance_paperTrades]
      rfl
    · intro tr htr
      rw [List.mem_singleton] at htr
      subst htr
      exact ⟨rfl, hnet⟩
  · exact ⟨[], by simp, by simp⟩

/-- The USDC-targeted pipeline appends only well-formed records. -/
theorem runUSDC_trades_ok (thr : ℚ) (s : PaperState) (bc sc : Chain)
    (bp sp gas : ℚ) :
    ∃ suffix : List PaperTrade,
      (runUSDCTargetedCheck thr s bc sc bp sp gas).paperTrades
        = s.paperTrades ++ suffix ∧ ∀ tr ∈ suffix, RecordOk thr tr := by
  simp only [runUSDCTargetedCheck]
  cases checkUSDCTargetedArbitrage thr s bc bp sp gas with
  | ratioNotProfitable => exact ⟨[], by simp, by simp⟩
  | insufficientBalance => exact ⟨[], by simp, by simp⟩
  | belowThreshold a => exact ⟨[], by simp, by simp⟩
  | execute a => exact executeUSDC_trades_ok thr s bc sc bp sp a gas

/-- The USDT-targeted pipeline appends only well-formed records. -/
theorem runUSDT_trades_ok (thr : ℚ) (s : PaperState) (bc sc : Chain)
    (bp sp gas : ℚ) :
    ∃ suffix : List PaperTrade,
      (runUSDTTargetedCheck thr s bc sc bp sp gas).paperTrades
        = s.paperTrades ++ suffix ∧ ∀ tr ∈ suffix, RecordOk thr tr := by
  simp only [runUSDTTargetedCheck]
  cases checkUSDTTargetedArbitrage thr s bc bp sp gas with
  | ratioNotProfitable => exact ⟨[], by simp, by simp⟩
  | insufficientBalance => exact ⟨[], by simp, by simp⟩
  | belowThreshold a => exact ⟨[], by simp, by simp⟩
  | execute a => exact executeUSDT_trades_ok thr s bc sc bp sp a gas

/-- One arbitrage cycle appends only well-formed records. -/
theorem checkArb_trades_ok (thr : ℚ) (poolMetadata : Chain → PoolMeta)
    (pA pS : ChainPrice) (gas : ℚ) (s : PaperState) :
    ∃ suffix : List PaperTrade,
      (checkArbitrageOpportunities thr poolMetadata pA pS gas s).paperTrades
        = s.paperTrades ++ suffix ∧ ∀ tr ∈ suffix, RecordOk thr tr := by
  simp only [checkArbitrageOpportunities]
  cases determineTargetToken poolMetadata s with
  | USDT => exact runUSDC_trades_ok thr s _ _ _ _ gas
  | USDC => exact runUSDT_trades_ok thr s _ _ _ _ gas

/-- Claim C10: every record ever appended to the trade history has status
`executed` and net profit strictly above the profit threshold; the history
is append-only (each cycle only appends, and over any run every record in
the history of a well-formed start stays well-formed). -/
theorem claim10_trade_records :
    (∀ thr : ℚ, ∀ poolMetadata : Chain → PoolMeta, ∀ pA pS : ChainPrice,
      ∀ gas : ℚ, ∀ s : PaperState,
      ∃ suffix : List PaperTrade,
        (checkArbitrageOpportunities thr poolMetadata pA pS gas s).paperTrades
          = s.paperTrades ++ suffix ∧ ∀ tr ∈ suffix, RecordOk thr tr) ∧
    (∀ thr : ℚ, ∀ poolMetadata : Chain → PoolMeta, ∀ inputs : List CycleInput,
      ∀ s : PaperState,
      (∀ tr ∈ s.paperTrades, RecordOk thr tr) →
      ∀ tr ∈ (runCycles thr poolMetadata inputs s).paperTrades,
        RecordOk thr tr) := by
  constructor
  · intro thr poolMetadata pA pS gas s
    exact checkArb_trades_ok thr poolMetadata pA pS gas s
  · intro thr poolMetadata inputs
    induction inputs with
    | nil => intro s hok tr htr; exact hok tr htr
    | cons i rest ih =>
        intro s hok tr htr
        obtain ⟨suffix, heq, hsuf⟩ := checkArb_trades_ok thr poolMetadata
          i.avalanchePrice i.sonicPrice i.totalGasUSD s
        refine ih (checkArbitrageOpportunities thr poolMetadata
          i.avalanchePrice i.sonicPrice i.totalGasUSD s) ?_ tr htr
        intro tr2 htr2
        rw [heq] at htr2
        rcases List.mem_append.mp htr2 with hmem | hmem
        · exact hok tr2 hmem
        · exact hsuf tr2 hmem

/-- Witness for C10: the record appended in the `lowUSDTState` scenario is
well-formed (status `executed`, net profit above the 0.50 threshold). -/
theorem claim10_trade_records_witness : RecordOk (1/2) scenarioTrade := by
  have hres : runCycles (1/2) usdcToken0Meta [scenarioInput] lowUSDTState
      = scenarioResultState := rfl
  have hmem : scenarioTrade ∈
      (runCycles (1/2) usdcToken0Meta [scenarioInput] lowUSDTState).paperTrades := by
    rw [hres, scenario_cycle_result]
    exact List.mem_singleton.mpr rfl
  exact claim10_trade_records.2 (1/2) usdcToken0Meta [scenarioInput]
    lowUSDTState (by simp [lowUSDTState]) scenarioTrade hmem

end CrossChainArb








